import Mathlib

/-!
Verification of the interaction/state logic of the dipole-simulator app
(`src/dipole_sim/app.py`).

The embedding models the controller class `App`: its state dict (built by
`_init_state`), the widget attributes its handlers touch, the marker handles
(`_init_markers`), and the event handlers `_handle_slice_click`,
`_handle_amp_change`, `_handle_reset_button_click`, `_set_view_mode` /
`_handle_view_mode_change` and `_toggle_updating_state`.

Scalars (click coordinates, slice coordinates, amplitudes) are modelled as
rationals.  The per-axis dipole dicts `dict(x=None, y=None, z=None)` are
modelled as `Option` of a full 3-vector: `app.py` only ever creates the
all-`None` dict (in `_init_state`), and the entries are written all at once
by the click callbacks ("resolves […] into a full 3-D point; writes
dipolePosition"), so the field is either fully set or fully unset — exactly
the spec's data model "3 scalars or unset".  Under this representation the
code's readiness check `state['dipole_pos']['x'] is not None` is `isSome`.

The modules `callbacks`, `dipole`, `slice` and `cursor` imported by `app.py`
are not part of the sources; the functions taken from them are modelled from
the spec (each carries a doc comment saying so).  Handlers return a
`HandlerRun`: the final controller data, the list of states at which the
field-evaluation pipeline (`plot_evoked`) is invoked, the number of times
marker drawing is invoked, and the trace of successive state values during
the handler's execution (for the busy-flag claims).
-/

/-- The three anatomical axes `x`, `y`, `z` indexing the slice views. -/
inductive Axis : Type
  | x
  | y
  | z
deriving DecidableEq, Repr

/-- A per-axis record, mirroring the `dict(x=…, y=…, z=…)` idiom of `app.py`. -/
structure Axes3 (α : Type) : Type where
  x : α
  y : α
  z : α
deriving DecidableEq, Repr

namespace Axes3

/-- Read the entry for a given axis. -/
def get (a : Axes3 α) : Axis → α
  | .x => a.x
  | .y => a.y
  | .z => a.z

/-- Write the entry for a given axis. -/
def set (a : Axes3 α) : Axis → α → Axes3 α
  | .x, v => { a with x := v }
  | .y, v => { a with y := v }
  | .z, v => { a with z := v }

end Axes3

/-- One entry of `state['slice_coord']`: `dict(val=…, min=…, max=…)`. -/
structure SliceCoord : Type where
  val : ℚ
  min : ℚ
  max : ℚ
deriving DecidableEq, Repr

/-- `state['label_text']` from `_init_state`. -/
structure LabelText : Type where
  x : String
  y : String
  z : String
  topomap_mag : String
  topomap_grad : String
  topomap_eeg : String
deriving DecidableEq, Repr

/-- The interaction modes stored in `state['mode']`. -/
inductive Mode : Type
  | slice_browser
  | set_dipole_pos
  | set_dipole_ori
deriving DecidableEq, Repr

/-- The state dict built by `App._init_state`.  Arrow handles are opaque
(naturals). -/
structure State : Type where
  slice_coord : Axes3 SliceCoord
  crosshair_pos : Axes3 ℚ
  dipole_pos : Option (Axes3 ℚ)
  dipole_ori : Option (Axes3 ℚ)
  dipole_amplitude : ℚ
  label_text : LabelText
  dipole_arrows : List ℕ
  mode : Mode
  updating : Bool
deriving DecidableEq, Repr

/-- The widget attributes mutated by the handlers under study: the
`label['updating']`, `label['dipole_pos']`, `label['dipole_ori']` labels and
the amplitude `IntSlider` (value and disabled flag). -/
structure Widget : Type where
  label_updating : String
  label_dipole_pos : String
  label_dipole_ori : String
  amplitude_slider_value : ℚ
  amplitude_slider_disabled : Bool
deriving DecidableEq, Repr

/-- The marker-handle dicts built by `App._init_markers`; handles are opaque
(naturals). -/
structure Markers : Type where
  dipole_pos : Axes3 (Option ℕ)
  dipole_ori : Axes3 (Option ℕ)
deriving DecidableEq, Repr

/-- The mutable data of the controller: `self._state`, the touched widget
attributes, and `self._markers`. -/
structure App : Type where
  state : State
  widget : Widget
  markers : Markers
deriving DecidableEq, Repr

/-- `App._init_state`: the default state record. -/
def init_state : State where
  slice_coord :=
    { x := { val := 0, min := -60, max := 60 }
      y := { val := 0, min := -70, max := 70 }
      z := { val := 0, min := -20, max := 60 } }
  crosshair_pos := { x := 0, y := 0, z := 0 }
  dipole_pos := none
  dipole_ori := none
  dipole_amplitude := 50 / 10 ^ 9
  label_text :=
    { x := "sagittal (x = 0 mm)"
      y := "coronal (y = 0 mm)"
      z := "axial (z = 0 mm)"
      topomap_mag := "Evoked magnetometer field"
      topomap_grad := "Evoked gradiometer field"
      topomap_eeg := "Evoked EEG field" }
  dipole_arrows := []
  mode := .slice_browser
  updating := false

/-- The widget attributes as `_init_widget` creates them: `Label('Ready.')`,
`Label('Not set')` twice, and the slider at `int(50e-9 * 1e9) = 50`. -/
def init_widget : Widget where
  label_updating := "Ready."
  label_dipole_pos := "Not set"
  label_dipole_ori := "Not set"
  amplitude_slider_value := 50
  amplitude_slider_disabled := false

/-- `App._init_markers`: all marker handles unset. -/
def init_markers : Markers where
  dipole_pos := { x := none, y := none, z := none }
  dipole_ori := { x := none, y := none, z := none }

/-- The controller data right after `App.__init__`. -/
def init_app : App where
  state := init_state
  widget := init_widget
  markers := init_markers

/-- `matplotlib.backend_bases.MouseButton` values relevant to clicks. -/
inductive MouseButton : Type
  | LEFT
  | RIGHT
  | MIDDLE
deriving DecidableEq, Repr

/-- A matplotlib click event as seen by `_handle_slice_click`: the button,
which slice figure's axes the click landed in (`none` = inside the figure but
outside any axes, i.e. `event.inaxes is None`), and the data coordinates. -/
structure ClickEvent : Type where
  button : MouseButton
  inaxes : Option Axis
  xdata : ℚ
  ydata : ℚ
deriving DecidableEq, Repr

/-- `App._toggle_updating_state`: flips `state['updating']` and sets the
updating label to `'Updating …'` or `'Ready.'` accordingly. -/
def toggle_updating_state (s : State) (w : Widget) : State × Widget :=
  let s' := { s with updating := !s.updating }
  let w' :=
    { w with label_updating := if s'.updating then "Updating …" else "Ready." }
  (s', w')

/-- Modelled from the spec: `get_axis_names_from_slice` (module `slice` is not
under the sources).  Returns the two axes spanning the clicked slice view's
plane; the remaining (out-of-plane) axis is the view's own axis. -/
def get_axis_names_from_slice : Axis → Axis × Axis
  | .x => (.y, .z)
  | .y => (.x, .z)
  | .z => (.x, .y)

/-- Modelled from the spec: `handle_click_in_slice_browser_mode` (module
`callbacks` is not under the sources).  "browsing: updates the crosshair/slice
position to the clicked location; does not touch dipole fields." -/
def handle_click_in_slice_browser_mode (s : State) (x y : ℚ)
    (x_idx y_idx : Axis) : State :=
  { s with
    slice_coord :=
      (s.slice_coord.set x_idx
        { s.slice_coord.get x_idx with val := x }).set y_idx
        { s.slice_coord.get y_idx with val := y }
    crosshair_pos := (s.crosshair_pos.set x_idx x).set y_idx y }

/-- Modelled from the spec: the 3-D resolution shared by the two dipole click
callbacks.  "resolves the clicked 2-D point (in one of three orthogonal
planes) plus the third axis's current browse coordinate into a full 3-D
point." -/
def resolve_clicked_point (s : State) (x_idx y_idx remaining_idx : Axis)
    (x y : ℚ) : Axes3 ℚ :=
  ((Axes3.set ({ x := 0, y := 0, z := 0 } : Axes3 ℚ) remaining_idx
    (s.slice_coord.get remaining_idx).val).set x_idx x).set y_idx y

/-- Modelled from the spec: `handle_click_in_set_dipole_pos_mode` (module
`callbacks` is not under the sources).  "settingPosition: […] writes
dipolePosition." -/
def handle_click_in_set_dipole_pos_mode (s : State)
    (x_idx y_idx remaining_idx : Axis) (x y : ℚ) : State :=
  { s with dipole_pos := some (resolve_clicked_point s x_idx y_idx remaining_idx x y) }

/-- Modelled from the spec: `handle_click_in_set_dipole_ori_mode` (module
`callbacks` is not under the sources).  "settingOrientation: same resolution,
writes dipoleOrientation." -/
def handle_click_in_set_dipole_ori_mode (s : State)
    (x_idx y_idx remaining_idx : Axis) (x y : ℚ) : State :=
  { s with dipole_ori := some (resolve_clicked_point s x_idx y_idx remaining_idx x y) }

/-- The readiness check guarding `plot_evoked` (and `draw_dipole_arrows`):
`state['dipole_pos']['x'] is not None and state['dipole_ori']['x'] is not None
and state['dipole_pos'] != state['dipole_ori']`. -/
def eval_guard (s : State) : Bool :=
  s.dipole_pos.isSome && s.dipole_ori.isSome &&
    decide (s.dipole_pos ≠ s.dipole_ori)

/-- Modelled from the spec: `plot_dipole_pos_marker` (module `dipole` is not
under the sources) — marker handles are "recreated whenever markers are
redrawn". -/
def plot_dipole_pos_marker (m : Markers) : Markers :=
  { m with dipole_pos := { x := some 0, y := some 0, z := some 0 } }

/-- Modelled from the spec: `plot_dipole_ori_marker` (module `dipole` is not
under the sources). -/
def plot_dipole_ori_marker (m : Markers) : Markers :=
  { m with dipole_ori := { x := some 0, y := some 0, z := some 0 } }

/-- Modelled from the spec: `draw_dipole_arrows` (module `dipole` is not under
the sources) — records fresh arrow handles in `state['dipole_arrows']`. -/
def draw_dipole_arrows (s : State) : State :=
  { s with dipole_arrows := s.dipole_arrows ++ [0] }

/-- Modelled from the spec: `remove_dipole_arrows` (module `dipole` is not
under the sources) — arrows are "invalidated on reset". -/
def remove_dipole_arrows (s : State) : State :=
  { s with dipole_arrows := [] }

/-- Modelled from the spec: `remove_dipole_pos_markers` (module `dipole` is
not under the sources) — reset "clears all dipole markers". -/
def remove_dipole_pos_markers (m : Markers) : Markers :=
  { m with dipole_pos := { x := none, y := none, z := none } }

/-- Modelled from the spec: `remove_dipole_ori_markers` (module `dipole` is
not under the sources). -/
def remove_dipole_ori_markers (m : Markers) : Markers :=
  { m with dipole_ori := { x := none, y := none, z := none } }

/-- `App._plot_dipole_markers_and_arrow`: draws the position marker when the
position is set, the orientation marker when the orientation is set, and the
arrows when both are set and differ (the same check that guards
`plot_evoked`). -/
def plot_dipole_markers_and_arrow (s : State) (m : Markers) : State × Markers :=
  let m1 := if s.dipole_pos.isSome then plot_dipole_pos_marker m else m
  let m2 := if s.dipole_ori.isSome then plot_dipole_ori_marker m1 else m1
  let s' := if eval_guard s then draw_dipole_arrows s else s
  (s', m2)

/-- The field-evaluation call site: `plot_evoked` is invoked (once) exactly
when the readiness check holds, and we record the state at that invocation. -/
def eval_step (s : State) : List State :=
  if eval_guard s then [s] else []

/-- The mode dispatch of `_handle_slice_click` (lines 214-228): the clicked
slice view's in-plane axes are `x_idx, y_idx`, the out-of-plane axis
(`remaining_idx`) is the view's own axis, and the state update is chosen by
`state['mode']`. -/
def slice_click_dispatch (s : State) (ax : Axis) (x y : ℚ) : State :=
  let idxs := get_axis_names_from_slice ax
  match s.mode with
  | .slice_browser =>
      handle_click_in_slice_browser_mode s x y idxs.1 idxs.2
  | .set_dipole_pos =>
      handle_click_in_set_dipole_pos_mode s idxs.1 idxs.2 ax x y
  | .set_dipole_ori =>
      handle_click_in_set_dipole_ori_mode s idxs.1 idxs.2 ax x y

/-- The outcome of running one handler: the final controller data, the list of
state values at each invocation of the field-evaluation pipeline
(`plot_evoked`), how many times `_plot_dipole_markers_and_arrow` was invoked,
and the trace of successive state values during execution (entry state first,
final state last). -/
structure HandlerRun : Type where
  app : App
  evals : List State
  marker_draws : ℕ
  trace : List State
deriving Repr

/-- `App._handle_slice_click`.  Non-left clicks return at once.  For left
clicks the updating flag is toggled on, then: clicks outside any axes toggle
it back and return; otherwise the mode-specific callback mutates the state,
markers and arrows are redrawn, `plot_evoked` runs when the readiness check
holds, and the updating flag is toggled off. -/
def handle_slice_click (a : App) (e : ClickEvent) : HandlerRun :=
  if e.button ≠ MouseButton.LEFT then
    { app := a, evals := [], marker_draws := 0, trace := [a.state] }
  else
    let sw1 := toggle_updating_state a.state a.widget
    let s1 := sw1.1
    let w1 := sw1.2
    match e.inaxes with
    | none =>
      let sw2 := toggle_updating_state s1 w1
      { app := { state := sw2.1, widget := sw2.2, markers := a.markers }
        evals := []
        marker_draws := 0
        trace := [a.state, s1, sw2.1] }
    | some axis =>
      let s2 := slice_click_dispatch s1 axis e.xdata e.ydata
      let sm := plot_dipole_markers_and_arrow s2 a.markers
      let s3 := sm.1
      let m2 := sm.2
      let sw2 := toggle_updating_state s3 w1
      { app := { state := sw2.1, widget := sw2.2, markers := m2 }
        evals := eval_step s3
        marker_draws := 1
        trace := [a.state, s1, s2, s3, sw2.1] }

/-- `App._handle_amp_change`: toggles the updating flag on, disables the
slider, stores `change['new'] * 1e-9` as the amplitude, runs `plot_evoked`
when the readiness check holds, toggles the flag off and re-enables the
slider. -/
def handle_amp_change (a : App) (new : ℚ) : HandlerRun :=
  let sw1 := toggle_updating_state a.state a.widget
  let s1 := sw1.1
  let w1 := { sw1.2 with amplitude_slider_disabled := true }
  let s2 := { s1 with dipole_amplitude := new / 10 ^ 9 }
  let sw2 := toggle_updating_state s2 w1
  let w3 := { sw2.2 with amplitude_slider_disabled := false }
  { app := { state := sw2.1, widget := w3, markers := a.markers }
    evals := eval_step s2
    marker_draws := 0
    trace := [a.state, s1, s2, sw2.1] }

/-- `App._set_view_mode`: maps the selector option string to the mode. -/
def set_view_mode (s : State) (new_mode : String) : State :=
  if new_mode = "Slice Browser" then { s with mode := .slice_browser }
  else if new_mode = "Set Dipole Origin" then { s with mode := .set_dipole_pos }
  else if new_mode = "Set Dipole Orientation" then
    { s with mode := .set_dipole_ori }
  else s

/-- `App._handle_view_mode_change`: applies `_set_view_mode` to
`change['new']`. -/
def handle_view_mode_change (a : App) (new : String) : HandlerRun :=
  let s1 := set_view_mode a.state new
  { app := { state := s1, widget := a.widget, markers := a.markers }
    evals := []
    marker_draws := 0
    trace := [a.state, s1] }

/-- `App._handle_reset_button_click`: removes arrows and markers, replaces the
state with `_init_state()`, resets the dipole labels and writes the default
amplitude back into the slider.  The slider's `observe(…, names='value')`
registration (ipywidgets) fires `_handle_amp_change` when that write actually
changes the slider value, so that nested run is part of the reset's effect. -/
def handle_reset_button_click (a : App) : HandlerRun :=
  let s1 := remove_dipole_arrows a.state
  let m1 := remove_dipole_ori_markers (remove_dipole_pos_markers a.markers)
  let s2 := init_state
  let default_slider := s2.dipole_amplitude * 10 ^ 9
  let w1 :=
    { a.widget with
      label_dipole_pos := "Not set"
      label_dipole_ori := "Not set"
      amplitude_slider_value := default_slider }
  if a.widget.amplitude_slider_value = default_slider then
    { app := { state := s2, widget := w1, markers := m1 }
      evals := []
      marker_draws := 0
      trace := [a.state, s1, s2] }
  else
    let r := handle_amp_change { state := s2, widget := w1, markers := m1 }
      default_slider
    { app := r.app
      evals := r.evals
      marker_draws := r.marker_draws
      trace := [a.state, s1, s2] ++ r.trace }

/-- The states strictly inside a handler's trace: everything after the entry
state and before the final state. -/
def HandlerRun.interior (r : HandlerRun) : List State :=
  (r.trace.drop 1).dropLast

/-- "fully defined and not coordinate-wise identical": both dipole fields hold
a full 3-D point and the two points differ. -/
def ready (s : State) : Prop :=
  (∃ p, s.dipole_pos = some p) ∧ (∃ q, s.dipole_ori = some q) ∧
    s.dipole_pos ≠ s.dipole_ori

/-- The selector option strings and the modes they select (mirrors the branch
structure of `_set_view_mode`). -/
def mode_of_option (new_mode : String) : Option Mode :=
  if new_mode = "Slice Browser" then some Mode.slice_browser
  else if new_mode = "Set Dipole Origin" then some Mode.set_dipole_pos
  else if new_mode = "Set Dipole Orientation" then some Mode.set_dipole_ori
  else none

theorem eval_guard_iff (s : State) : eval_guard s = true ↔ ready s := by
  simp only [eval_guard, ready, Option.isSome_iff_exists, Bool.and_eq_true,
    decide_eq_true_eq, ne_eq, and_assoc]

theorem mem_eval_step {s t : State} :
    t ∈ eval_step s ↔ t = s ∧ eval_guard s = true := by
  unfold eval_step
  split <;> simp_all

theorem length_eval_step (s : State) :
    (eval_step s).length = if eval_guard s then 1 else 0 := by
  unfold eval_step
  split <;> simp

theorem toggle_state_eq (s : State) (w : Widget) :
    (toggle_updating_state s w).1 = { s with updating := !s.updating } := rfl

theorem toggle_twice_state (s : State) (w w' : Widget) :
    (toggle_updating_state (toggle_updating_state s w).1 w').1 = s := by
  simp [toggle_updating_state]

theorem eval_guard_toggle (s : State) (w : Widget) :
    eval_guard (toggle_updating_state s w).1 = eval_guard s := rfl

theorem dispatch_preserves_dipole_amplitude (s : State) (ax : Axis) (x y : ℚ) :
    (slice_click_dispatch s ax x y).dipole_amplitude = s.dipole_amplitude := by
  unfold slice_click_dispatch
  cases s.mode <;> rfl

theorem dispatch_preserves_mode (s : State) (ax : Axis) (x y : ℚ) :
    (slice_click_dispatch s ax x y).mode = s.mode := by
  unfold slice_click_dispatch
  cases hm : s.mode <;> simp [hm, handle_click_in_slice_browser_mode,
    handle_click_in_set_dipole_pos_mode, handle_click_in_set_dipole_ori_mode]

theorem dispatch_preserves_updating (s : State) (ax : Axis) (x y : ℚ) :
    (slice_click_dispatch s ax x y).updating = s.updating := by
  unfold slice_click_dispatch
  cases s.mode <;> rfl

theorem dispatch_preserves_label_text (s : State) (ax : Axis) (x y : ℚ) :
    (slice_click_dispatch s ax x y).label_text = s.label_text := by
  unfold slice_click_dispatch
  cases s.mode <;> rfl

theorem markers_step_state_eq (s : State) (m : Markers) :
    (plot_dipole_markers_and_arrow s m).1 =
      if eval_guard s then draw_dipole_arrows s else s := rfl

theorem markers_step_preserves_updating (s : State) (m : Markers) :
    (plot_dipole_markers_and_arrow s m).1.updating = s.updating := by
  rw [markers_step_state_eq]
  split <;> rfl

theorem markers_step_eval_guard (s : State) (m : Markers) :
    eval_guard (plot_dipole_markers_and_arrow s m).1 = eval_guard s := by
  rw [markers_step_state_eq]
  split <;> rfl

theorem handle_slice_click_of_not_left (a : App) (e : ClickEvent)
    (hb : e.button ≠ MouseButton.LEFT) :
    handle_slice_click a e =
      { app := a, evals := [], marker_draws := 0, trace := [a.state] } := by
  unfold handle_slice_click
  rw [if_pos hb]

theorem handle_slice_click_of_inaxes_none (a : App) (e : ClickEvent)
    (hb : e.button = MouseButton.LEFT) (hax : e.inaxes = none) :
    handle_slice_click a e =
      (let sw1 := toggle_updating_state a.state a.widget
       let sw2 := toggle_updating_state sw1.1 sw1.2
       { app := { state := sw2.1, widget := sw2.2, markers := a.markers }
         evals := []
         marker_draws := 0
         trace := [a.state, sw1.1, sw2.1] }) := by
  unfold handle_slice_click
  rw [if_neg (by simp [hb]), hax]

theorem handle_slice_click_of_inaxes_some (a : App) (e : ClickEvent) (ax : Axis)
    (hb : e.button = MouseButton.LEFT) (hax : e.inaxes = some ax) :
    handle_slice_click a e =
      (let sw1 := toggle_updating_state a.state a.widget
       let s2 := slice_click_dispatch sw1.1 ax e.xdata e.ydata
       let sm := plot_dipole_markers_and_arrow s2 a.markers
       let sw2 := toggle_updating_state sm.1 sw1.2
       { app := { state := sw2.1, widget := sw2.2, markers := sm.2 }
         evals := eval_step sm.1
         marker_draws := 1
         trace := [a.state, sw1.1, s2, sm.1, sw2.1] }) := by
  unfold handle_slice_click
  rw [if_neg (by simp [hb]), hax]

theorem eval_guard_set_updating (s : State) (u : Bool) :
    eval_guard { s with updating := u } = eval_guard s := rfl

/-- The state right after the mode dispatch and the marker/arrow redraw of a
left click inside the axes of slice view `ax` — the state `plot_evoked`'s
guard is checked on. -/
def slice_click_mutated (a : App) (ax : Axis) (x y : ℚ) : State :=
  (plot_dipole_markers_and_arrow
    (slice_click_dispatch { a.state with updating := !a.state.updating } ax x y)
    a.markers).1

theorem slice_click_not_left_evals (a : App) (e : ClickEvent)
    (hb : e.button ≠ MouseButton.LEFT) :
    (handle_slice_click a e).evals = [] := by
  rw [handle_slice_click_of_not_left a e hb]

theorem slice_click_none_evals (a : App) (e : ClickEvent)
    (hb : e.button = MouseButton.LEFT) (hax : e.inaxes = none) :
    (handle_slice_click a e).evals = [] := by
  rw [handle_slice_click_of_inaxes_none a e hb hax]

theorem slice_click_none_state (a : App) (e : ClickEvent)
    (hb : e.button = MouseButton.LEFT) (hax : e.inaxes = none) :
    (handle_slice_click a e).app.state = a.state := by
  rw [handle_slice_click_of_inaxes_none a e hb hax]
  exact toggle_twice_state a.state a.widget
    (toggle_updating_state a.state a.widget).2

theorem slice_click_some_evals (a : App) (e : ClickEvent) (ax : Axis)
    (hb : e.button = MouseButton.LEFT) (hax : e.inaxes = some ax) :
    (handle_slice_click a e).evals =
      eval_step (slice_click_mutated a ax e.xdata e.ydata) := by
  rw [handle_slice_click_of_inaxes_some a e ax hb hax]
  rfl

theorem slice_click_some_state (a : App) (e : ClickEvent) (ax : Axis)
    (hb : e.button = MouseButton.LEFT) (hax : e.inaxes = some ax) :
    (handle_slice_click a e).app.state =
      { slice_click_mutated a ax e.xdata e.ydata with
        updating := !(slice_click_mutated a ax e.xdata e.ydata).updating } := by
  rw [handle_slice_click_of_inaxes_some a e ax hb hax]
  rfl

/-- The state `_handle_amp_change` stores the new amplitude into — the state
`plot_evoked`'s guard is checked on. -/
def amp_change_mutated (a : App) (new : ℚ) : State :=
  { a.state with updating := !a.state.updating, dipole_amplitude := new / 10 ^ 9 }

theorem amp_change_evals (a : App) (new : ℚ) :
    (handle_amp_change a new).evals = eval_step (amp_change_mutated a new) := rfl

theorem amp_change_state (a : App) (new : ℚ) :
    (handle_amp_change a new).app.state =
      { amp_change_mutated a new with
        updating := !(amp_change_mutated a new).updating } := rfl

/-- The field-evaluation pipeline runs exactly once — and at most once — per
handler pass exactly when the state it is checked on is ready; toggling the
updating flag afterwards does not affect readiness. -/
theorem eval_count_iff_ready (s fin : State)
    (hg : eval_guard fin = eval_guard s) :
    ((eval_step s).length = 1 ↔ ready fin) ∧ (eval_step s).length ≤ 1 := by
  rw [length_eval_step, ← eval_guard_iff, hg]
  by_cases h : eval_guard s <;> simp [h]

/-- Claim C1: the call into the forward-solution/topomap pipeline occurs only
when both `dipole_pos` and `dipole_ori` hold a full 3-D point and the two
points are not coordinate-wise identical; whenever either is unset or the two
are equal, neither the slice-click handler nor the amplitude-change handler
invokes the evaluation. -/
theorem claim_C1_eval_only_when_ready (a : App) (e : ClickEvent) (v : ℚ)
    (s : State) :
    (s ∈ (handle_slice_click a e).evals → ready s) ∧
    (s ∈ (handle_amp_change a v).evals → ready s) := by
  constructor
  · intro hs
    by_cases hb : e.button = MouseButton.LEFT
    · cases hax : e.inaxes with
      | none =>
        rw [slice_click_none_evals a e hb hax] at hs
        cases hs
      | some ax =>
        rw [slice_click_some_evals a e ax hb hax, mem_eval_step] at hs
        obtain ⟨rfl, hg⟩ := hs
        exact (eval_guard_iff _).1 hg
    · rw [slice_click_not_left_evals a e hb] at hs
      cases hs
  · intro hs
    rw [amp_change_evals, mem_eval_step] at hs
    obtain ⟨rfl, hg⟩ := hs
    exact (eval_guard_iff _).1 hg

/-- Claim C2: whenever the state a handler leaves behind has both dipole
fields set and unequal, that handler pass invoked the field-evaluation
pipeline exactly once — never zero times and never more than once.  (The
readiness check runs on the freshly mutated state, so "the state" is the one
the mutating event produced.) -/
theorem claim_C2_eval_exactly_once (a : App) (e : ClickEvent) (ax : Axis)
    (v : ℚ) :
    (e.button = MouseButton.LEFT → e.inaxes = some ax →
      (((handle_slice_click a e).evals.length = 1 ↔
          ready (handle_slice_click a e).app.state) ∧
        (handle_slice_click a e).evals.length ≤ 1)) ∧
    (((handle_amp_change a v).evals.length = 1 ↔
        ready (handle_amp_change a v).app.state) ∧
      (handle_amp_change a v).evals.length ≤ 1) := by
  constructor
  · intro hb hax
    rw [slice_click_some_evals a e ax hb hax, slice_click_some_state a e ax hb hax]
    exact eval_count_iff_ready _ _ rfl
  · rw [amp_change_evals, amp_change_state]
    exact eval_count_iff_ready _ _ rfl

/-- Claim C5: a left click inside the figure but outside any axes
(`event.inaxes is None`) leaves the state dict exactly as it was, draws no
markers, and invokes no field evaluation. -/
theorem claim_C5_click_outside_axes_ignored (a : App) (e : ClickEvent)
    (hb : e.button = MouseButton.LEFT) (hax : e.inaxes = none) :
    (handle_slice_click a e).app.state = a.state ∧
    (handle_slice_click a e).app.markers = a.markers ∧
    (handle_slice_click a e).marker_draws = 0 ∧
    (handle_slice_click a e).evals = [] := by
  refine ⟨slice_click_none_state a e hb hax, ?_, ?_,
    slice_click_none_evals a e hb hax⟩
  · rw [handle_slice_click_of_inaxes_none a e hb hax]
  · rw [handle_slice_click_of_inaxes_none a e hb hax]

/-- Claim C9: a click with any button other than the left one returns
immediately: the state (updating flag included), widget and markers are
untouched, no markers are drawn and no field evaluation is invoked. -/
theorem claim_C9_non_left_click_no_effect (a : App) (e : ClickEvent)
    (hb : e.button ≠ MouseButton.LEFT) :
    handle_slice_click a e =
      { app := a, evals := [], marker_draws := 0, trace := [a.state] } :=
  handle_slice_click_of_not_left a e hb

theorem set_view_mode_self (s : State) (opt : String)
    (h : mode_of_option opt = some s.mode) : set_view_mode s opt = s := by
  unfold mode_of_option at h
  unfold set_view_mode
  split_ifs at h ⊢
  · injection h with h'
    rw [h']
  · injection h with h'
    rw [h']
  · injection h with h'
    rw [h']

theorem set_view_mode_updating (s : State) (opt : String) :
    (set_view_mode s opt).updating = s.updating := by
  unfold set_view_mode
  split_ifs <;> rfl

/-- Claim C7: applying the mode-change handler with the selector option of
the already-active mode leaves everything — state, widget and markers —
unchanged. -/
theorem claim_C7_mode_change_idempotent (a : App) (opt : String)
    (h : mode_of_option opt = some a.state.mode) :
    handle_view_mode_change a opt =
      { app := a, evals := [], marker_draws := 0,
        trace := [a.state, a.state] } := by
  unfold handle_view_mode_change
  rw [set_view_mode_self a.state opt h]

/-- Claim C8: mode transitions are unconditional — for every prior state and
each of the three selector options, `_set_view_mode` sets `state['mode']` to
the corresponding mode and changes nothing else, and the handler applies it
without touching widget or markers. -/
theorem claim_C8_mode_change_unconditional (a : App) :
    (∀ opt : String, handle_view_mode_change a opt =
      { app := { state := set_view_mode a.state opt, widget := a.widget,
                 markers := a.markers }
        evals := [], marker_draws := 0,
        trace := [a.state, set_view_mode a.state opt] }) ∧
    set_view_mode a.state "Slice Browser" =
      { a.state with mode := Mode.slice_browser } ∧
    set_view_mode a.state "Set Dipole Origin" =
      { a.state with mode := Mode.set_dipole_pos } ∧
    set_view_mode a.state "Set Dipole Orientation" =
      { a.state with mode := Mode.set_dipole_ori } := by
  refine ⟨fun opt => rfl, ?_, ?_, ?_⟩ <;> simp [set_view_mode]

/-- The invariant tying the updating label to the updating flag: the label
reads `'Updating …'` exactly when the flag is true and `'Ready.'` exactly
when it is false. -/
def updating_label_invariant (s : State) (w : Widget) : Prop :=
  (w.label_updating = "Updating …" ↔ s.updating = true) ∧
  (w.label_updating = "Ready." ↔ s.updating = false)

/-- Claim C10: `_toggle_updating_state` preserves the label/flag invariant
(indeed it re-establishes it unconditionally), and applying it twice restores
the updating flag always, and the (flag, label) pair whenever the invariant
held initially. -/
theorem claim_C10_toggle_invariant_involution (s : State) (w : Widget) :
    (updating_label_invariant s w →
      updating_label_invariant (toggle_updating_state s w).1
        (toggle_updating_state s w).2) ∧
    (toggle_updating_state (toggle_updating_state s w).1
      (toggle_updating_state s w).2).1.updating = s.updating ∧
    (updating_label_invariant s w →
      toggle_updating_state (toggle_updating_state s w).1
        (toggle_updating_state s w).2 = (s, w)) := by
  refine ⟨fun _ => ?_, ?_, fun hinv => ?_⟩
  · cases hu : s.updating <;>
      simp [toggle_updating_state, updating_label_invariant, hu]
  · rw [toggle_twice_state]
  · have hw : w.label_updating =
        (if s.updating then "Updating …" else "Ready.") := by
      cases hu : s.updating with
      | false => simp [hu, hinv.2.mpr hu]
      | true => simp [hu, hinv.1.mpr hu]
    simp [toggle_updating_state, Bool.not_not, ← hw]

theorem get_set_ne {α : Type} (a : Axes3 α) (i j : Axis) (v : α)
    (h : i ≠ j) : (a.set i v).get j = a.get j := by
  cases i <;> cases j <;> simp_all [Axes3.set, Axes3.get]

theorem in_plane_fst_ne (ax : Axis) : (get_axis_names_from_slice ax).1 ≠ ax := by
  cases ax <;> decide

theorem in_plane_snd_ne (ax : Axis) : (get_axis_names_from_slice ax).2 ≠ ax := by
  cases ax <;> decide

theorem markers_step_preserves_dipole_pos (s : State) (m : Markers) :
    (plot_dipole_markers_and_arrow s m).1.dipole_pos = s.dipole_pos := by
  rw [markers_step_state_eq]
  split <;> rfl

theorem markers_step_preserves_dipole_ori (s : State) (m : Markers) :
    (plot_dipole_markers_and_arrow s m).1.dipole_ori = s.dipole_ori := by
  rw [markers_step_state_eq]
  split <;> rfl

theorem markers_step_preserves_dipole_amplitude (s : State) (m : Markers) :
    (plot_dipole_markers_and_arrow s m).1.dipole_amplitude =
      s.dipole_amplitude := by
  rw [markers_step_state_eq]
  split <;> rfl

theorem markers_step_preserves_mode (s : State) (m : Markers) :
    (plot_dipole_markers_and_arrow s m).1.mode = s.mode := by
  rw [markers_step_state_eq]
  split <;> rfl

theorem markers_step_preserves_label_text (s : State) (m : Markers) :
    (plot_dipole_markers_and_arrow s m).1.label_text = s.label_text := by
  rw [markers_step_state_eq]
  split <;> rfl

theorem markers_step_preserves_slice_coord (s : State) (m : Markers) :
    (plot_dipole_markers_and_arrow s m).1.slice_coord = s.slice_coord := by
  rw [markers_step_state_eq]
  split <;> rfl

theorem markers_step_preserves_crosshair_pos (s : State) (m : Markers) :
    (plot_dipole_markers_and_arrow s m).1.crosshair_pos = s.crosshair_pos := by
  rw [markers_step_state_eq]
  split <;> rfl

theorem dispatch_browser (s : State) (ax : Axis) (x y : ℚ)
    (hm : s.mode = Mode.slice_browser) :
    slice_click_dispatch s ax x y =
      handle_click_in_slice_browser_mode s x y
        (get_axis_names_from_slice ax).1 (get_axis_names_from_slice ax).2 := by
  unfold slice_click_dispatch
  rw [hm]

/-- Claim C6: a left click handled in `slice_browser` mode changes only the
slice-coordinate and crosshair entries of the clicked plane's two axes: the
dipole fields, the amplitude, the mode, the updating flag, the label texts
and the out-of-plane axis entries all come back unchanged. -/
theorem claim_C6_browse_click_frame (a : App) (e : ClickEvent) (ax : Axis)
    (hb : e.button = MouseButton.LEFT) (hax : e.inaxes = some ax)
    (hm : a.state.mode = Mode.slice_browser) :
    (handle_slice_click a e).app.state.dipole_pos = a.state.dipole_pos ∧
    (handle_slice_click a e).app.state.dipole_ori = a.state.dipole_ori ∧
    (handle_slice_click a e).app.state.dipole_amplitude =
      a.state.dipole_amplitude ∧
    (handle_slice_click a e).app.state.mode = a.state.mode ∧
    (handle_slice_click a e).app.state.updating = a.state.updating ∧
    (handle_slice_click a e).app.state.label_text = a.state.label_text ∧
    (handle_slice_click a e).app.state.slice_coord.get ax =
      a.state.slice_coord.get ax ∧
    (handle_slice_click a e).app.state.crosshair_pos.get ax =
      a.state.crosshair_pos.get ax := by
  have hm1 : ({ a.state with updating := !a.state.updating } : State).mode =
      Mode.slice_browser := hm
  rw [slice_click_some_state a e ax hb hax]
  unfold slice_click_mutated
  rw [dispatch_browser _ ax e.xdata e.ydata hm1]
  refine ⟨?_, ?_, ?_, ?_, ?_, ?_, ?_, ?_⟩
  · simpa [handle_click_in_slice_browser_mode] using
      markers_step_preserves_dipole_pos _ a.markers
  · simpa [handle_click_in_slice_browser_mode] using
      markers_step_preserves_dipole_ori _ a.markers
  · simpa [handle_click_in_slice_browser_mode] using
      markers_step_preserves_dipole_amplitude _ a.markers
  · simpa [handle_click_in_slice_browser_mode] using
      markers_step_preserves_mode _ a.markers
  · simp [markers_step_preserves_updating, handle_click_in_slice_browser_mode]
  · simpa [handle_click_in_slice_browser_mode] using
      markers_step_preserves_label_text _ a.markers
  · rw [show ∀ t : State, ({ t with
        updating := !t.updating } : State).slice_coord = t.slice_coord
        from fun t => rfl]
    rw [markers_step_preserves_slice_coord]
    simp only [handle_click_in_slice_browser_mode]
    rw [get_set_ne _ _ _ _ (in_plane_snd_ne ax),
      get_set_ne _ _ _ _ (in_plane_fst_ne ax)]
  · rw [show ∀ t : State, ({ t with
        updating := !t.updating } : State).crosshair_pos = t.crosshair_pos
        from fun t => rfl]
    rw [markers_step_preserves_crosshair_pos]
    simp only [handle_click_in_slice_browser_mode]
    rw [get_set_ne _ _ _ _ (in_plane_snd_ne ax),
      get_set_ne _ _ _ _ (in_plane_fst_ne ax)]

theorem amp_change_state_fields (a : App) (v : ℚ) :
    (handle_amp_change a v).app.state =
      { a.state with
        dipole_amplitude := v / 10 ^ 9
        updating := !(!a.state.updating) } := rfl

theorem reset_state (a : App) :
    (handle_reset_button_click a).app.state = init_state := by
  by_cases h : a.widget.amplitude_slider_value =
      init_state.dipole_amplitude * 10 ^ 9
  · simp only [handle_reset_button_click]
    rw [if_pos h]
  · simp only [handle_reset_button_click]
    rw [if_neg h, amp_change_state_fields]
    norm_num [init_state]

theorem reset_markers (a : App) :
    (handle_reset_button_click a).app.markers = init_markers := by
  by_cases h : a.widget.amplitude_slider_value =
      init_state.dipole_amplitude * 10 ^ 9
  · simp only [handle_reset_button_click]
    rw [if_pos h]
    rfl
  · simp only [handle_reset_button_click]
    rw [if_neg h]
    rfl

theorem reset_slider_value (a : App) :
    (handle_reset_button_click a).app.widget.amplitude_slider_value = 50 := by
  by_cases h : a.widget.amplitude_slider_value =
      init_state.dipole_amplitude * 10 ^ 9
  · simp only [handle_reset_button_click]
    rw [if_pos h]
    norm_num [init_state]
  · simp only [handle_reset_button_click]
    rw [if_neg h]
    norm_num [init_state, handle_amp_change, toggle_updating_state]

theorem reset_evals (a : App) :
    (handle_reset_button_click a).evals = [] := by
  by_cases h : a.widget.amplitude_slider_value =
      init_state.dipole_amplitude * 10 ^ 9
  · simp only [handle_reset_button_click]
    rw [if_pos h]
  · simp only [handle_reset_button_click]
    rw [if_neg h, amp_change_evals]
    rfl

theorem reset_trace_take (a : App) :
    (handle_reset_button_click a).trace.take 3 =
      [a.state, remove_dipole_arrows a.state, init_state] := by
  by_cases h : a.widget.amplitude_slider_value =
      init_state.dipole_amplitude * 10 ^ 9
  · simp only [handle_reset_button_click]
    rw [if_pos h]
    rfl
  · simp only [handle_reset_button_click]
    rw [if_neg h]
    rfl

/-- Claim C4: the reset handler restores the state dict to the exact default
record (crosshair at the origin, dipole position and orientation unset,
amplitude `50e-9` Am, mode `slice_browser`, updating flag false), clears all
marker handles and arrows, writes the default value back into the amplitude
slider, and triggers no field computation — even when the slider write fires
the amplitude observer, the freshly reset state fails the readiness check. -/
theorem claim_C4_reset_restores_defaults (a : App) :
    (handle_reset_button_click a).app.state = init_state ∧
    (handle_reset_button_click a).app.markers = init_markers ∧
    (handle_reset_button_click a).app.state.dipole_arrows = [] ∧
    (handle_reset_button_click a).app.widget.amplitude_slider_value = 50 ∧
    (handle_reset_button_click a).evals = [] ∧
    init_state.crosshair_pos = { x := 0, y := 0, z := 0 } ∧
    init_state.dipole_pos = none ∧
    init_state.dipole_ori = none ∧
    init_state.dipole_amplitude = 50 / 10 ^ 9 ∧
    init_state.mode = Mode.slice_browser ∧
    init_state.updating = false := by
  refine ⟨reset_state a, reset_markers a, ?_, reset_slider_value a,
    reset_evals a, rfl, rfl, rfl, rfl, rfl, rfl⟩
  rw [reset_state a]
  rfl

theorem slice_click_mutated_updating (a : App) (ax : Axis) (x y : ℚ) :
    (slice_click_mutated a ax x y).updating = !a.state.updating := by
  unfold slice_click_mutated
  rw [markers_step_preserves_updating, dispatch_preserves_updating]

theorem slice_click_none_trace (a : App) (e : ClickEvent)
    (hb : e.button = MouseButton.LEFT) (hax : e.inaxes = none) :
    (handle_slice_click a e).trace =
      [a.state, { a.state with updating := !a.state.updating },
       { a.state with updating := !(!a.state.updating) }] := by
  rw [handle_slice_click_of_inaxes_none a e hb hax]
  rfl

theorem slice_click_some_trace (a : App) (e : ClickEvent) (ax : Axis)
    (hb : e.button = MouseButton.LEFT) (hax : e.inaxes = some ax) :
    (handle_slice_click a e).trace =
      [a.state, { a.state with updating := !a.state.updating },
       slice_click_dispatch { a.state with updating := !a.state.updating } ax
         e.xdata e.ydata,
       slice_click_mutated a ax e.xdata e.ydata,
       { slice_click_mutated a ax e.xdata e.ydata with
         updating := !(slice_click_mutated a ax e.xdata e.ydata).updating }] := by
  rw [handle_slice_click_of_inaxes_some a e ax hb hax]
  rfl

theorem amp_change_trace (a : App) (v : ℚ) :
    (handle_amp_change a v).trace =
      [a.state, { a.state with updating := !a.state.updating },
       amp_change_mutated a v,
       { amp_change_mutated a v with
         updating := !(amp_change_mutated a v).updating }] := rfl

theorem slice_click_some_final_updating (a : App) (e : ClickEvent) (ax : Axis)
    (hb : e.button = MouseButton.LEFT) (hax : e.inaxes = some ax) :
    (handle_slice_click a e).app.state.updating = !(!a.state.updating) := by
  have h1 : (handle_slice_click a e).app.state.updating =
      !(slice_click_mutated a ax e.xdata e.ydata).updating := by
    rw [handle_slice_click_of_inaxes_some a e ax hb hax]
    rfl
  rw [h1, slice_click_mutated_updating]

/-- Claim C3 is false as stated: the mode-change handler mutates the state
(it changes the mode) while the busy/updating flag is false at every point of
its execution, so the flag is not "true for the entire extent of the
handler's execution" for every handler. -/
theorem claim_C3_counterexample :
    (handle_view_mode_change init_app "Set Dipole Origin").app.state.mode ≠
      init_app.state.mode ∧
    (handle_view_mode_change init_app "Set Dipole Origin").trace.map
      State.updating = [false, false] := by
  constructor
  · decide
  · rfl

/-- Claim C3 (amended): the busy flag brackets exactly the two handlers that
may trigger a field computation.  Starting from a non-busy state: the
slice-click handler and the amplitude-change handler keep the flag true at
every intermediate state of their execution — in particular at any
field-evaluation call — and leave it false on return; the mode-change handler
and the body of the reset handler never set the flag (reset may set it only
inside the nested amplitude-observer callback), and every handler leaves it
false on return. -/
theorem claim_C3_busy_flag_amended (a : App) (e : ClickEvent) (v : ℚ)
    (opt : String) (hu : a.state.updating = false) :
    ((∀ s ∈ (handle_slice_click a e).interior, s.updating = true) ∧
      (handle_slice_click a e).app.state.updating = false ∧
      (∀ s ∈ (handle_slice_click a e).evals, s.updating = true)) ∧
    ((∀ s ∈ (handle_amp_change a v).interior, s.updating = true) ∧
      (handle_amp_change a v).app.state.updating = false ∧
      (∀ s ∈ (handle_amp_change a v).evals, s.updating = true)) ∧
    ((∀ s ∈ (handle_view_mode_change a opt).trace, s.updating = false) ∧
      (handle_view_mode_change a opt).app.state.updating = false) ∧
    ((∀ s ∈ (handle_reset_button_click a).trace.take 3, s.updating = false) ∧
      (handle_reset_button_click a).app.state.updating = false) := by
  refine ⟨⟨?_, ?_, ?_⟩, ⟨?_, ?_, ?_⟩, ⟨?_, ?_⟩, ⟨?_, ?_⟩⟩
  · intro s hs
    by_cases hb : e.button = MouseButton.LEFT
    · cases hax : e.inaxes with
      | none =>
        simp only [HandlerRun.interior, slice_click_none_trace a e hb hax] at hs
        simp at hs
        subst hs
        simp [hu]
      | some ax =>
        simp only [HandlerRun.interior, slice_click_some_trace a e ax hb hax] at hs
        simp at hs
        rcases hs with hs | hs | hs
        · subst hs
          simp [hu]
        · subst hs
          rw [dispatch_preserves_updating]
          simp [hu]
        · subst hs
          rw [slice_click_mutated_updating, hu]
          rfl
    · simp only [HandlerRun.interior,
        handle_slice_click_of_not_left a e hb] at hs
      simp at hs
  · by_cases hb : e.button = MouseButton.LEFT
    · cases hax : e.inaxes with
      | none =>
        rw [slice_click_none_state a e hb hax, hu]
      | some ax =>
        rw [slice_click_some_final_updating a e ax hb hax, hu]
        rfl
    · rw [handle_slice_click_of_not_left a e hb]
      exact hu
  · intro s hs
    by_cases hb : e.button = MouseButton.LEFT
    · cases hax : e.inaxes with
      | none =>
        rw [slice_click_none_evals a e hb hax] at hs
        cases hs
      | some ax =>
        rw [slice_click_some_evals a e ax hb hax, mem_eval_step] at hs
        obtain ⟨rfl, h⟩ := hs
        rw [slice_click_mutated_updating, hu]
        rfl
    · rw [slice_click_not_left_evals a e hb] at hs
      cases hs
  · intro s hs
    simp only [HandlerRun.interior, amp_change_trace] at hs
    simp at hs
    rcases hs with hs | hs
    · subst hs
      simp [hu]
    · subst hs
      simp [amp_change_mutated, hu]
  · rw [amp_change_state_fields]
    simp [hu]
  · intro s hs
    rw [amp_change_evals, mem_eval_step] at hs
    obtain ⟨rfl, h⟩ := hs
    simp [amp_change_mutated, hu]
  · intro s hs
    simp only [handle_view_mode_change] at hs
    simp at hs
    rcases hs with hs | hs
    · subst hs
      exact hu
    · subst hs
      rw [set_view_mode_updating]
      exact hu
  · show (set_view_mode a.state opt).updating = false
    rw [set_view_mode_updating]
    exact hu
  · intro s hs
    rw [reset_trace_take] at hs
    simp at hs
    rcases hs with hs | hs | hs
    · subst hs
      exact hu
    · subst hs
      simp [remove_dipole_arrows, hu]
    · subst hs
      rfl
  · rw [reset_state]
    rfl

/-- A sample dipole position used by the witnesses. -/
def demo_pos : Axes3 ℚ := { x := 1, y := 2, z := 3 }

/-- A sample dipole orientation used by the witnesses. -/
def demo_ori : Axes3 ℚ := { x := 4, y := 5, z := 6 }

/-- A controller whose state has both dipole fields set (and unequal). -/
def ready_app : App :=
  { init_app with
    state := { init_state with
      dipole_pos := some demo_pos
      dipole_ori := some demo_ori } }

/-- A left click at data coordinates (3, 4) inside the axial slice view. -/
def e_demo : ClickEvent :=
  { button := .LEFT, inaxes := some .z, xdata := 3, ydata := 4 }

/-- A left click inside the figure but outside any axes. -/
def e_none : ClickEvent :=
  { button := .LEFT, inaxes := none, xdata := 1, ydata := 2 }

/-- A right-button click inside the sagittal slice view. -/
def e_right : ClickEvent :=
  { button := .RIGHT, inaxes := some .x, xdata := 0, ydata := 0 }

/-- The state at the `plot_evoked` call of `handle_slice_click ready_app
e_demo`. -/
def eval_state_click : State :=
  { init_state with
    slice_coord :=
      { x := { val := 3, min := -60, max := 60 }
        y := { val := 4, min := -70, max := 70 }
        z := { val := 0, min := -20, max := 60 } }
    crosshair_pos := { x := 3, y := 4, z := 0 }
    dipole_pos := some demo_pos
    dipole_ori := some demo_ori
    dipole_arrows := [0]
    updating := true }

/-- The state at the `plot_evoked` call of `handle_amp_change ready_app 60`. -/
def eval_state_amp : State :=
  { init_state with
    dipole_pos := some demo_pos
    dipole_ori := some demo_ori
    dipole_amplitude := 60 / 10 ^ 9
    updating := true }

/-- Witness for claim C1 at a concrete click and amplitude change. -/
theorem claim_C1_witness :
    eval_state_click ∈ (handle_slice_click ready_app e_demo).evals ∧
    ready eval_state_click ∧
    eval_state_amp ∈ (handle_amp_change ready_app 60).evals ∧
    ready eval_state_amp := by
  have hmem1 : eval_state_click ∈ (handle_slice_click ready_app e_demo).evals := by
    rw [slice_click_some_evals ready_app e_demo Axis.z rfl rfl]
    exact mem_eval_step.mpr ⟨rfl, rfl⟩
  have hmem2 : eval_state_amp ∈ (handle_amp_change ready_app 60).evals := by
    rw [amp_change_evals]
    exact mem_eval_step.mpr ⟨rfl, rfl⟩
  exact ⟨hmem1,
    (claim_C1_eval_only_when_ready ready_app e_demo 60 eval_state_click).1
      hmem1,
    hmem2,
    (claim_C1_eval_only_when_ready ready_app e_demo 60 eval_state_amp).2
      hmem2⟩

/-- Witness for claim C2 at a concrete click and amplitude change. -/
theorem claim_C2_witness :
    e_demo.button = MouseButton.LEFT ∧ e_demo.inaxes = some Axis.z ∧
    (handle_slice_click ready_app e_demo).evals.length = 1 ∧
    (handle_amp_change ready_app 60).evals.length = 1 :=
  ⟨rfl, rfl,
   ((claim_C2_eval_exactly_once ready_app e_demo Axis.z 60).1 rfl rfl).1.mpr
     ⟨⟨demo_pos, by decide⟩, ⟨demo_ori, by decide⟩, by decide⟩,
   ((claim_C2_eval_exactly_once ready_app e_demo Axis.z 60).2).1.mpr
     ⟨⟨demo_pos, by decide⟩, ⟨demo_ori, by decide⟩, by decide⟩⟩

/-- Witness for the amended claim C3 at concrete events from the default
(non-busy) controller. -/
theorem claim_C3_witness :
    init_app.state.updating = false ∧
    (handle_slice_click init_app e_demo).app.state.updating = false ∧
    (handle_amp_change init_app 60).app.state.updating = false ∧
    (handle_view_mode_change init_app "Set Dipole Origin").app.state.updating
      = false ∧
    (handle_reset_button_click init_app).app.state.updating = false :=
  ⟨rfl,
   (claim_C3_busy_flag_amended init_app e_demo 60 "Set Dipole Origin"
     rfl).1.2.1,
   (claim_C3_busy_flag_amended init_app e_demo 60 "Set Dipole Origin"
     rfl).2.1.2.1,
   (claim_C3_busy_flag_amended init_app e_demo 60 "Set Dipole Origin"
     rfl).2.2.1.2,
   (claim_C3_busy_flag_amended init_app e_demo 60 "Set Dipole Origin"
     rfl).2.2.2.2⟩

/-- Witness for claim C5 at a concrete outside-axes click. -/
theorem claim_C5_witness :
    e_none.button = MouseButton.LEFT ∧ e_none.inaxes = none ∧
    (handle_slice_click init_app e_none).app.state = init_app.state ∧
    (handle_slice_click init_app e_none).evals = [] :=
  ⟨rfl, rfl,
   (claim_C5_click_outside_axes_ignored init_app e_none rfl rfl).1,
   (claim_C5_click_outside_axes_ignored init_app e_none rfl rfl).2.2.2⟩

/-- Witness for claim C6 at a concrete browsing click. -/
theorem claim_C6_witness :
    e_demo.button = MouseButton.LEFT ∧ e_demo.inaxes = some Axis.z ∧
    init_app.state.mode = Mode.slice_browser ∧
    (handle_slice_click init_app e_demo).app.state.dipole_pos =
      init_app.state.dipole_pos ∧
    (handle_slice_click init_app e_demo).app.state.mode =
      init_app.state.mode ∧
    (handle_slice_click init_app e_demo).app.state.slice_coord.get Axis.z =
      init_app.state.slice_coord.get Axis.z :=
  ⟨rfl, rfl, rfl,
   (claim_C6_browse_click_frame init_app e_demo Axis.z rfl rfl rfl).1,
   (claim_C6_browse_click_frame init_app e_demo Axis.z rfl rfl rfl).2.2.2.1,
   (claim_C6_browse_click_frame init_app e_demo Axis.z rfl rfl
     rfl).2.2.2.2.2.2.1⟩

/-- Witness for claim C7: re-selecting the active mode at the default
controller. -/
theorem claim_C7_witness :
    mode_of_option "Slice Browser" = some init_app.state.mode ∧
    handle_view_mode_change init_app "Slice Browser" =
      { app := init_app, evals := [], marker_draws := 0,
        trace := [init_app.state, init_app.state] } :=
  ⟨by decide,
   claim_C7_mode_change_idempotent init_app "Slice Browser" (by decide)⟩

/-- Witness for claim C9 at a concrete right-button click. -/
theorem claim_C9_witness :
    e_right.button ≠ MouseButton.LEFT ∧
    handle_slice_click init_app e_right =
      { app := init_app, evals := [], marker_draws := 0,
        trace := [init_app.state] } :=
  ⟨by decide,
   claim_C9_non_left_click_no_effect init_app e_right (by decide)⟩

/-- Witness for claim C10 at the default state and widget. -/
theorem claim_C10_witness :
    updating_label_invariant init_state init_widget ∧
    updating_label_invariant (toggle_updating_state init_state init_widget).1
      (toggle_updating_state init_state init_widget).2 ∧
    (toggle_updating_state (toggle_updating_state init_state init_widget).1
      (toggle_updating_state init_state init_widget).2).1.updating =
      init_state.updating ∧
    toggle_updating_state (toggle_updating_state init_state init_widget).1
      (toggle_updating_state init_state init_widget).2 =
      (init_state, init_widget) := by
  have hinv : updating_label_invariant init_state init_widget := by
    simp [updating_label_invariant, init_state, init_widget]
  exact ⟨hinv,
    (claim_C10_toggle_invariant_involution init_state init_widget).1 hinv,
    (claim_C10_toggle_invariant_involution init_state init_widget).2.1,
    (claim_C10_toggle_invariant_involution init_state init_widget).2.2 hinv⟩
